import Mathlib

/-!
Verification development for the inventory backend (`src/backend/app.py`).

The core under study is the listing endpoint `get_items`: it builds a
conjunctive WHERE-clause list (exact name match, timezone-shifted date
match) together with a positional parameter list, runs a COUNT query and a
page query sharing those filters, and paginates with
`LIMIT per_page OFFSET (page-1)*per_page`.  The create endpoint `add_item`
(duplicate `item_code` conflict handling) is also embedded.

Modelling conventions:
* timestamps (`created_at`, a `TIMESTAMP WITH TIME ZONE` column) are seconds
  since the Unix epoch, in UTC, as `Int`;
* a calendar date is its day number relative to 1970-01-01 (`daysFromCivil`);
* SQL `date(ts)` truncation is floor division by 86400;
* Python `//` is `Int.fdiv`, with the `ZeroDivisionError` on divisor 0 made
  explicit (`pyFloorDiv`);
* a failed SQL execution (unparseable `TO_DATE` argument, negative
  `LIMIT`/`OFFSET`, parameter/placeholder mismatch) is `none`/`.error .dbError`;
* `int(float(s))` for `tzOffset` is modelled for finite decimal literals
  (optional sign, digits, optional fractional part, surrounding whitespace);
  exponent, infinity, NaN and underscore forms are not modelled — no claim
  depends on them.
-/

/-- A row of the `items` table (schema in `init_db`). -/
structure Item where
  id : Nat
  item_code : String
  item_name : String
  rack_no : String
  quantity : Int
  image_filename : Option String
  description : Option String
  /-- Seconds since the Unix epoch, UTC. -/
  created_at : Int
  deriving DecidableEq

/-- Failure modes of a request: Python `ZeroDivisionError` from the
`total_pages` computation, or a failed database query. -/
inductive PyError
  | zeroDivision
  | dbError
  deriving DecidableEq

/-- The JSON body returned by `get_items`. -/
structure ListingResult where
  items : List Item
  currentPage : Int
  totalPages : Int
  deriving DecidableEq

/-- The three WHERE-clause templates `get_items` can append:
`item_name = %s`;
`date(created_at + (%s * interval '1 minute')) = TO_DATE(%s, 'YYYY-MM-DD')`;
`date(created_at AT TIME ZONE 'UTC') = TO_DATE(%s, 'YYYY-MM-DD')`. -/
inductive Clause
  | nameEq
  | dateShift
  | dateUtc
  deriving DecidableEq

/-- A positional query parameter bound to a `%s` placeholder. -/
inductive Param
  | str (s : String)
  | int (i : Int)
  deriving DecidableEq

/-- Characters stripped by Python `float()` around a numeric literal. -/
def isPySpace (c : Char) : Bool :=
  c = ' ' || c = Char.ofNat 9 || c = Char.ofNat 10 ||
    c = Char.ofNat 11 || c = Char.ofNat 12 || c = Char.ofNat 13

/-- Strip leading and trailing whitespace. -/
def pyTrim (l : List Char) : List Char :=
  ((l.dropWhile isPySpace).reverse.dropWhile isPySpace).reverse

/-- Split a character list on a separator character (groups between
occurrences, empty groups kept). -/
def splitOnChar (c : Char) : List Char → List (List Char)
  | [] => [[]]
  | x :: xs =>
    if x = c then [] :: splitOnChar c xs
    else
      match splitOnChar c xs with
      | [] => [[x]]
      | g :: gs => (x :: g) :: gs

/-- Value of a (possibly empty) string of decimal digits. -/
def digitsToNat (l : List Char) : Nat :=
  l.foldl (fun n c => n * 10 + (c.toNat - 48)) 0

/-- `int(float(s))` for finite decimal literals: optional surrounding
whitespace, optional sign, digits with an optional fractional part,
truncated toward zero.  `none` models the `ValueError` that `get_items`
catches. -/
def parseTzOffset (s : String) : Option Int :=
  let t := pyTrim s.data
  let signed : Bool × List Char :=
    match t with
    | c :: r =>
      if c = Char.ofNat 45 then (true, r)
      else if c = Char.ofNat 43 then (false, r)
      else (false, t)
    | [] => (false, [])
  match splitOnChar (Char.ofNat 46) signed.2 with
  | [ip] =>
    if !ip.isEmpty && ip.all Char.isDigit then
      some (if signed.1 then -(digitsToNat ip : Int) else (digitsToNat ip : Int))
    else none
  | [ip, fp] =>
    if (!ip.isEmpty || !fp.isEmpty) && ip.all Char.isDigit && fp.all Char.isDigit then
      some (if signed.1 then -(digitsToNat ip : Int) else (digitsToNat ip : Int))
    else none
  | _ => none

/-- Day number of a proleptic-Gregorian civil date relative to 1970-01-01
(the standard days-from-civil computation). -/
def daysFromCivil (y m d : Nat) : Int :=
  let yi : Int := if m ≤ 2 then (y : Int) - 1 else (y : Int)
  let era : Int := Int.fdiv yi 400
  let yoe : Int := yi - era * 400
  let mp : Int := if m ≤ 2 then (m : Int) + 9 else (m : Int) - 3
  let doy : Int := Int.fdiv (153 * mp + 2) 5 + (d : Int) - 1
  let doe : Int := yoe * 365 + Int.fdiv yoe 4 - Int.fdiv yoe 100 + doy
  era * 146097 + doe - 719468

/-- `TO_DATE(s, 'YYYY-MM-DD')`: parse a dash-separated `YYYY-MM-DD` string
to its day number; `none` models the database error on an unparseable
value. -/
def parseDate (s : String) : Option Int :=
  match splitOnChar (Char.ofNat 45) s.data with
  | [ys, ms, ds] =>
    if !ys.isEmpty && ys.all Char.isDigit && !ms.isEmpty && ms.all Char.isDigit
        && !ds.isEmpty && ds.all Char.isDigit then
      let m := digitsToNat ms
      let d := digitsToNat ds
      if 1 ≤ m && m ≤ 12 && 1 ≤ d && d ≤ 31 then
        some (daysFromCivil (digitsToNat ys) m d)
      else none
    else none
  | _ => none

/-- The name filter of `get_items`: `if filter_item_name:` appends
`item_name = %s` with the filter value (the empty string is falsy). -/
def nameFilter (name : String) : List Clause × List Param :=
  if name = "" then ([], []) else ([Clause.nameEq], [Param.str name])

/-- The date filter of `get_items`: `if filter_date:` with the inner
`if tz_offset_minutes_str:` / `int(float(...))` fallback logic.  A present,
parseable offset `off` appends the shifted clause with parameters
`[-off, date]`; an absent, empty or unparseable offset appends the plain
UTC-truncation clause with parameter `[date]`. -/
def dateFilter (date : String) (tz : Option String) : List Clause × List Param :=
  if date = "" then ([], [])
  else
    match tz with
    | some s =>
      if s = "" then ([Clause.dateUtc], [Param.str date])
      else
        match parseTzOffset s with
        | some off => ([Clause.dateShift], [Param.int (-off), Param.str date])
        | none => ([Clause.dateUtc], [Param.str date])
    | none => ([Clause.dateUtc], [Param.str date])

/-- `where_clauses` and `query_params` as accumulated by `get_items`
(name clause first, then the date clause). -/
def buildFilters (name date : String) (tz : Option String) :
    List Clause × List Param :=
  ((nameFilter name).1 ++ (dateFilter date tz).1,
   (nameFilter name).2 ++ (dateFilter date tz).2)

/-- The count query `SELECT COUNT(id) ... WHERE <clauses>` with its
parameters. -/
def total_items_query (name date : String) (tz : Option String) :
    List Clause × List Param :=
  buildFilters name date tz

/-- The page query `SELECT * ... WHERE <clauses> ORDER BY created_at DESC
LIMIT %s OFFSET %s` with `paged_query_params = query_params + [per_page,
offset]`. -/
def items_query (name date : String) (tz : Option String)
    (per_page offset : Int) : List Clause × List Param :=
  ((buildFilters name date tz).1,
   (buildFilters name date tz).2 ++ [Param.int per_page, Param.int offset])

/-- Evaluate one clause against a row, consuming its placeholders from the
front of the parameter list; `none` on a parameter-shape mismatch or an
unparseable `TO_DATE` argument. -/
def evalClause (it : Item) : Clause → List Param → Option (Bool × List Param)
  | Clause.nameEq, Param.str s :: rest => some (it.item_name == s, rest)
  | Clause.dateShift, Param.int m :: Param.str d :: rest =>
    (parseDate d).map fun day =>
      (decide (Int.fdiv (it.created_at + 60 * m) 86400 = day), rest)
  | Clause.dateUtc, Param.str d :: rest =>
    (parseDate d).map fun day =>
      (decide (Int.fdiv it.created_at 86400 = day), rest)
  | _, _ => none

/-- Evaluate a conjunction of clauses against a row, threading the
parameter list; returns the truth value and the unconsumed parameters. -/
def evalClauses (it : Item) : List Clause → List Param → Option (Bool × List Param)
  | [], ps => some (true, ps)
  | c :: cs, ps =>
    match evalClause it c ps with
    | none => none
    | some (b, rest) =>
      match evalClauses it cs rest with
      | none => none
      | some (b2, rest2) => some (b && b2, rest2)

/-- WHERE-clause satisfaction for the count query: every parameter must be
consumed by the clauses. -/
def countWhere (q : List Clause × List Param) (it : Item) : Option Bool :=
  match evalClauses it q.1 q.2 with
  | some (b, []) => some b
  | _ => none

/-- WHERE-clause satisfaction for the page query: the clauses consume all
parameters except the two trailing integers bound to `LIMIT %s OFFSET %s`. -/
def pageWhere (q : List Clause × List Param) (it : Item) : Option Bool :=
  match evalClauses it q.1 q.2 with
  | some (b, [Param.int _, Param.int _]) => some b
  | _ => none

/-- Shape discipline: the clause list consumes the parameter list exactly. -/
def fits : List Clause → List Param → Bool
  | [], [] => true
  | Clause.nameEq :: cs, Param.str _ :: ps => fits cs ps
  | Clause.dateShift :: cs, Param.int _ :: Param.str _ :: ps => fits cs ps
  | Clause.dateUtc :: cs, Param.str _ :: ps => fits cs ps
  | _, _ => false

/-- Run a row predicate over the table, keeping the rows on which it holds;
`none` as soon as the predicate fails to evaluate (query error). -/
def filterRows (p : Item → Option Bool) : List Item → Option (List Item)
  | [] => some []
  | it :: rest =>
    match p it, filterRows p rest with
    | some b, some l => some (if b then it :: l else l)
    | _, _ => none

/-- Insert a row into a list kept in descending `created_at` order. -/
def insertDesc (x : Item) : List Item → List Item
  | [] => [x]
  | y :: ys => if y.created_at ≤ x.created_at then x :: y :: ys else y :: insertDesc x ys

/-- `ORDER BY created_at DESC`. -/
def sortDesc (l : List Item) : List Item :=
  l.foldr insertDesc []

/-- Execute the count query: number of rows satisfying the WHERE clauses. -/
def runCountQuery (db : List Item) (q : List Clause × List Param) : Option Int :=
  (filterRows (countWhere q) db).map fun l => (l.length : Int)

/-- Execute the page query: rows satisfying the WHERE clauses, ordered by
`created_at DESC`, after `OFFSET offset LIMIT limit`.  PostgreSQL rejects a
negative `LIMIT` or `OFFSET`. -/
def runItemsQuery (db : List Item) (q : List Clause × List Param)
    (limit offset : Int) : Option (List Item) :=
  if limit < 0 ∨ offset < 0 then none
  else
    (filterRows (pageWhere q) db).map fun l =>
      ((sortDesc l).drop offset.toNat).take limit.toNat

/-- Python `//`, with the `ZeroDivisionError` on a zero divisor explicit. -/
def pyFloorDiv (a b : Int) : Except PyError Int :=
  if b = 0 then Except.error PyError.zeroDivision else Except.ok (Int.fdiv a b)

/-- The listing endpoint `get_items` (app.py:135-196), after Flask has
parsed `page`/`per_page` (defaults 1 and 10) and fetched the raw `name`,
`date` (defaults `""`) and `tzOffset` (absent = `none`) parameters:
run the count query, compute
`total_pages = (total_items + per_page - 1) // per_page` and
`offset = (page - 1) * per_page`, run the page query, and return the items
with the echoed current page and the total page count. -/
def get_items (db : List Item) (page per_page : Int) (name date : String)
    (tz : Option String) : Except PyError ListingResult :=
  match runCountQuery db (total_items_query name date tz) with
  | none => Except.error PyError.dbError
  | some total_items =>
    match pyFloorDiv (total_items + per_page - 1) per_page with
    | Except.error e => Except.error e
    | Except.ok total_pages =>
      match runItemsQuery db
          (items_query name date tz per_page ((page - 1) * per_page))
          per_page ((page - 1) * per_page) with
      | none => Except.error PyError.dbError
      | some items =>
        Except.ok { items := items, currentPage := page, totalPages := total_pages }

/-- The JSON payload of a create request. -/
structure NewItemData where
  item_code : String
  item_name : String
  rack_no : String
  quantity : Int
  description : Option String
  deriving DecidableEq

/-- Outcome of `add_item`: HTTP status, the table after the request, and
the error message if any. -/
structure AddResult where
  status : Nat
  db : List Item
  errorMsg : Option String
  deriving DecidableEq

/-- ASCII apostrophe, as a string. -/
def squote : String :=
  String.singleton (Char.ofNat 39)

/-- The create endpoint `add_item` (app.py:198-243): the INSERT raises
`IntegrityError` exactly when `item_code` collides with an existing row
(the UNIQUE constraint), in which case the transaction is rolled back and
a 409 naming the duplicate code is returned; otherwise the row is inserted
with the server-assigned id and creation time and a 201 is returned. -/
def add_item (db : List Item) (data : NewItemData) (image_url : Option String)
    (newId : Nat) (now : Int) : AddResult :=
  if db.any fun it => it.item_code == data.item_code then
    { status := 409, db := db,
      errorMsg := some ("Item code " ++ squote ++ data.item_code ++ squote
        ++ " already exists.") }
  else
    { status := 201,
      db := db ++ [{ id := newId, item_code := data.item_code,
                     item_name := data.item_name, rack_no := data.rack_no,
                     quantity := data.quantity, image_filename := image_url,
                     description := data.description, created_at := now }],
      errorMsg := none }

/-- Concrete row used by the worked scenario: created at UTC
2024-01-01T23:00:00Z (epoch second 1704150000). -/
def exampleRow : Item :=
  { id := 1, item_code := "IT-001", item_name := "Widget", rack_no := "R1",
    quantity := 5, image_filename := none, description := none,
    created_at := 1704150000 }

/-! ## Structural lemmas about clause evaluation -/

/-- When the clauses consume the parameters exactly, evaluation either
fails (independently of trailing extra parameters) or consumes every
parameter and leaves any appended extras untouched. -/
lemma evalClauses_fits (it : Item) :
    ∀ cs ps, fits cs ps = true →
      (evalClauses it cs ps = none ∧ ∀ ex, evalClauses it cs (ps ++ ex) = none)
      ∨ ∃ b, evalClauses it cs ps = some (b, [])
          ∧ ∀ ex, evalClauses it cs (ps ++ ex) = some (b, ex) := by
  intro cs
  induction cs with
  | nil =>
    intro ps h
    cases ps with
    | nil => exact Or.inr ⟨true, rfl, fun ex => rfl⟩
    | cons p ps => simp [fits] at h
  | cons c cs ih =>
    intro ps h
    cases c with
    | nameEq =>
      rcases ps with _ | ⟨p, ps⟩
      · simp [fits] at h
      rcases p with s | i
      · have h' : fits cs ps = true := by simpa [fits] using h
        rcases ih ps h' with ⟨h1, h2⟩ | ⟨b, hb1, hb2⟩
        · refine Or.inl ⟨?_, fun ex => ?_⟩
          · simp [evalClauses, evalClause, h1]
          · simp [evalClauses, evalClause, h2 ex]
        · refine Or.inr ⟨(it.item_name == s) && b, ?_, fun ex => ?_⟩
          · simp [evalClauses, evalClause, hb1]
          · simp [evalClauses, evalClause, hb2 ex]
      · simp [fits] at h
    | dateShift =>
      rcases ps with _ | ⟨p, ps⟩
      · simp [fits] at h
      rcases p with s | m
      · simp [fits] at h
      rcases ps with _ | ⟨p2, ps⟩
      · simp [fits] at h
      rcases p2 with d | i2
      · have h' : fits cs ps = true := by simpa [fits] using h
        cases hpd : parseDate d with
        | none =>
          refine Or.inl ⟨?_, fun ex => ?_⟩
          · simp [evalClauses, evalClause, hpd]
          · simp [evalClauses, evalClause, hpd]
        | some day =>
          rcases ih ps h' with ⟨h1, h2⟩ | ⟨b, hb1, hb2⟩
          · refine Or.inl ⟨?_, fun ex => ?_⟩
            · simp [evalClauses, evalClause, hpd, h1]
            · simp [evalClauses, evalClause, hpd, h2 ex]
          · refine Or.inr
              ⟨decide (Int.fdiv (it.created_at + 60 * m) 86400 = day) && b,
                ?_, fun ex => ?_⟩
            · simp [evalClauses, evalClause, hpd, hb1]
            · simp [evalClauses, evalClause, hpd, hb2 ex]
      · simp [fits] at h
    | dateUtc =>
      rcases ps with _ | ⟨p, ps⟩
      · simp [fits] at h
      rcases p with d | i
      · have h' : fits cs ps = true := by simpa [fits] using h
        cases hpd : parseDate d with
        | none =>
          refine Or.inl ⟨?_, fun ex => ?_⟩
          · simp [evalClauses, evalClause, hpd]
          · simp [evalClauses, evalClause, hpd]
        | some day =>
          rcases ih ps h' with ⟨h1, h2⟩ | ⟨b, hb1, hb2⟩
          · refine Or.inl ⟨?_, fun ex => ?_⟩
            · simp [evalClauses, evalClause, hpd, h1]
            · simp [evalClauses, evalClause, hpd, h2 ex]
          · refine Or.inr
              ⟨decide (Int.fdiv it.created_at 86400 = day) && b, ?_, fun ex => ?_⟩
            · simp [evalClauses, evalClause, hpd, hb1]
            · simp [evalClauses, evalClause, hpd, hb2 ex]
      · simp [fits] at h

/-- Exact consumption is preserved by concatenating filters. -/
lemma fits_append :
    ∀ cs1 ps1 cs2 ps2, fits cs1 ps1 = true → fits cs2 ps2 = true →
      fits (cs1 ++ cs2) (ps1 ++ ps2) = true := by
  intro cs1
  induction cs1 with
  | nil =>
    intro ps1 cs2 ps2 h1 h2
    cases ps1 with
    | nil => simpa using h2
    | cons p ps => simp [fits] at h1
  | cons c cs ih =>
    intro ps1 cs2 ps2 h1 h2
    cases c with
    | nameEq =>
      rcases ps1 with _ | ⟨p, ps⟩
      · simp [fits] at h1
      rcases p with s | i
      · have h' : fits cs ps = true := by simpa [fits] using h1
        simpa [fits] using ih ps cs2 ps2 h' h2
      · simp [fits] at h1
    | dateShift =>
      rcases ps1 with _ | ⟨p, ps⟩
      · simp [fits] at h1
      rcases p with s | m
      · simp [fits] at h1
      rcases ps with _ | ⟨p2, ps⟩
      · simp [fits] at h1
      rcases p2 with d | i2
      · have h' : fits cs ps = true := by simpa [fits] using h1
        simpa [fits] using ih ps cs2 ps2 h' h2
      · simp [fits] at h1
    | dateUtc =>
      rcases ps1 with _ | ⟨p, ps⟩
      · simp [fits] at h1
      rcases p with d | i
      · have h' : fits cs ps = true := by simpa [fits] using h1
        simpa [fits] using ih ps cs2 ps2 h' h2
      · simp [fits] at h1

/-- The name filter consumes its parameters exactly. -/
lemma nameFilter_fits (n : String) :
    fits (nameFilter n).1 (nameFilter n).2 = true := by
  unfold nameFilter
  split <;> rfl

/-- The date filter consumes its parameters exactly. -/
lemma dateFilter_fits (d : String) (tz : Option String) :
    fits (dateFilter d tz).1 (dateFilter d tz).2 = true := by
  unfold dateFilter
  repeat' split
  all_goals rfl

/-- The composed filters of `get_items` consume their parameters exactly. -/
lemma buildFilters_fits (n d : String) (tz : Option String) :
    fits (buildFilters n d tz).1 (buildFilters n d tz).2 = true :=
  fits_append _ _ _ _ (nameFilter_fits n) (dateFilter_fits d tz)

/-- Count query and page query agree row by row on WHERE satisfaction. -/
lemma pageWhere_eq_countWhere (n d : String) (tz : Option String)
    (pp off : Int) (it : Item) :
    pageWhere (items_query n d tz pp off) it
      = countWhere (total_items_query n d tz) it := by
  have hf := buildFilters_fits n d tz
  rcases evalClauses_fits it (buildFilters n d tz).1 (buildFilters n d tz).2 hf with
    ⟨h1, h2⟩ | ⟨b, hb1, hb2⟩
  · unfold pageWhere countWhere items_query total_items_query
    rw [h2 [Param.int pp, Param.int off], h1]
  · unfold pageWhere countWhere items_query total_items_query
    rw [hb2 [Param.int pp, Param.int off], hb1]

/-! ## Row filtering, ordering and pagination lemmas -/

/-- Pointwise equal predicates filter identically. -/
lemma filterRows_congr {p q : Item → Option Bool} (h : ∀ it, p it = q it) :
    ∀ db, filterRows p db = filterRows q db := by
  intro db
  induction db with
  | nil => rfl
  | cons it rest ih => simp [filterRows, h it, ih]

/-- A successful filter returns exactly the rows on which the predicate
evaluates to `some true`. -/
lemma filterRows_eq_filter {p : Item → Option Bool} :
    ∀ {db l}, filterRows p db = some l →
      l = db.filter fun it => p it == some true := by
  intro db
  induction db with
  | nil =>
    intro l h
    simp only [filterRows] at h
    injection h with h
    simp [← h]
  | cons it rest ih =>
    intro l h
    simp only [filterRows] at h
    cases hp : p it with
    | none => rw [hp] at h; cases h
    | some b =>
      rw [hp] at h
      cases hf : filterRows p rest with
      | none => rw [hf] at h; cases h
      | some l2 =>
        rw [hf] at h
        injection h with h
        cases b with
        | false => simp [← h, List.filter_cons, hp, ih hf]
        | true => simp [← h, List.filter_cons, hp, ih hf]

/-- Every row kept by a successful filter satisfies the predicate. -/
lemma of_mem_filterRows {p : Item → Option Bool} {db l : List Item}
    (h : filterRows p db = some l) : ∀ it ∈ l, p it = some true := by
  intro it hit
  rw [filterRows_eq_filter h] at hit
  simpa using List.of_mem_filter hit

/-- Inserting into a descending list permutes consing. -/
lemma insertDesc_perm (x : Item) : ∀ l, (insertDesc x l).Perm (x :: l) := by
  intro l
  induction l with
  | nil => exact List.Perm.refl _
  | cons y ys ih =>
    unfold insertDesc
    split
    · exact List.Perm.refl _
    · exact (ih.cons y).trans (List.Perm.swap x y ys)

/-- `ORDER BY created_at DESC` permutes the matched rows. -/
lemma sortDesc_perm : ∀ l, (sortDesc l).Perm l := by
  intro l
  induction l with
  | nil => exact List.Perm.refl _
  | cons x xs ih =>
    exact (insertDesc_perm x (sortDesc xs)).trans (ih.cons x)

/-- Insertion preserves descending `created_at` order. -/
lemma pairwise_insertDesc (x : Item) :
    ∀ l, List.Pairwise (fun a b : Item => b.created_at ≤ a.created_at) l →
      List.Pairwise (fun a b : Item => b.created_at ≤ a.created_at)
        (insertDesc x l) := by
  intro l
  induction l with
  | nil => intro _; simp [insertDesc]
  | cons y ys ih =>
    intro h
    rcases List.pairwise_cons.mp h with ⟨hy, hys⟩
    unfold insertDesc
    split
    · rename_i hle
      refine List.pairwise_cons.mpr ⟨?_, h⟩
      intro z hz
      rcases List.mem_cons.mp hz with rfl | hz2
      · exact hle
      · exact le_trans (hy z hz2) hle
    · rename_i hgt
      refine List.pairwise_cons.mpr ⟨?_, ih hys⟩
      intro z hz
      rcases List.mem_cons.mp ((insertDesc_perm x ys).mem_iff.mp hz) with rfl | hz2
      · exact le_of_not_le hgt
      · exact hy z hz2

/-- The page query output is in descending `created_at` order. -/
lemma sortDesc_pairwise :
    ∀ l, List.Pairwise (fun a b : Item => b.created_at ≤ a.created_at)
      (sortDesc l) := by
  intro l
  induction l with
  | nil => simp [sortDesc]
  | cons x xs ih => exact pairwise_insertDesc x _ ih

/-- `(t + p - 1) // p` is the ceiling of `t / p` for nonnegative `t` and
positive `p`. -/
lemma fdiv_add_sub_one_eq_ceil (t p : Int) (hp : 0 < p) :
    Int.fdiv (t + p - 1) p = ⌈(t : ℚ) / (p : ℚ)⌉ := by
  have hfd : Int.fdiv (t + p - 1) p = (t + p - 1) / p :=
    Int.fdiv_eq_ediv _ (le_of_lt hp)
  set q := (t + p - 1) / p with hq
  have hmod : p * q + (t + p - 1) % p = t + p - 1 := Int.ediv_add_emod _ _
  have h0 : 0 ≤ (t + p - 1) % p := Int.emod_nonneg _ (ne_of_gt hp)
  have h1 : (t + p - 1) % p < p := Int.emod_lt_of_pos _ hp
  have hcomm : q * p = p * q := mul_comm q p
  have hub : t ≤ q * p := by linarith
  have hlb : (q - 1) * p < t := by
    have hring : (q - 1) * p = p * q - p := by ring
    linarith
  rw [hfd]
  symm
  rw [Int.ceil_eq_iff]
  have hpq : (0 : ℚ) < (p : ℚ) := by exact_mod_cast hp
  constructor
  · rw [lt_div_iff₀ hpq]
    exact_mod_cast hlb
  · rw [div_le_iff₀ hpq]
    exact_mod_cast hub

/-! ## Evaluation and inversion of the listing endpoint -/

/-- Forward evaluation of `get_items` when the count query succeeds and
`page`/`per_page` give a legal `LIMIT`/`OFFSET`. -/
lemma get_items_eval (db : List Item) (page pp : Int) (n d : String)
    (tz : Option String) (matched : List Item)
    (hm : filterRows (countWhere (total_items_query n d tz)) db = some matched)
    (hpp : 0 < pp) (hoff : 0 ≤ (page - 1) * pp) :
    get_items db page pp n d tz
      = Except.ok
          { items := ((sortDesc matched).drop ((page - 1) * pp).toNat).take pp.toNat,
            currentPage := page,
            totalPages := Int.fdiv ((matched.length : Int) + pp - 1) pp } := by
  have hcnt : runCountQuery db (total_items_query n d tz)
      = some (matched.length : Int) := by
    unfold runCountQuery
    rw [hm]
    rfl
  have hpw : filterRows (pageWhere (items_query n d tz pp ((page - 1) * pp))) db
      = some matched := by
    rw [filterRows_congr
      (fun it => pageWhere_eq_countWhere n d tz pp ((page - 1) * pp) it) db]
    exact hm
  have hpd : pyFloorDiv ((matched.length : Int) + pp - 1) pp
      = Except.ok (Int.fdiv ((matched.length : Int) + pp - 1) pp) := by
    unfold pyFloorDiv
    rw [if_neg (by omega : ¬ pp = 0)]
  have hitems : runItemsQuery db (items_query n d tz pp ((page - 1) * pp))
        pp ((page - 1) * pp)
      = some (((sortDesc matched).drop ((page - 1) * pp).toNat).take pp.toNat) := by
    unfold runItemsQuery
    rw [if_neg (by push_neg; exact ⟨by omega, hoff⟩ :
      ¬ (pp < 0 ∨ (page - 1) * pp < 0))]
    rw [hpw]
    rfl
  unfold get_items
  rw [hcnt]
  dsimp only
  rw [hpd]
  dsimp only
  rw [hitems]

/-- Inversion: a successful `get_items` response determines the matched
rows, the legality of the pagination parameters, and every response
field. -/
lemma get_items_ok_inv (db : List Item) (page pp : Int) (n d : String)
    (tz : Option String) (r : ListingResult)
    (hok : get_items db page pp n d tz = Except.ok r) :
    ∃ matched,
      filterRows (countWhere (total_items_query n d tz)) db = some matched
      ∧ 0 < pp ∧ 0 ≤ (page - 1) * pp
      ∧ r = { items := ((sortDesc matched).drop ((page - 1) * pp).toNat).take pp.toNat,
              currentPage := page,
              totalPages := Int.fdiv ((matched.length : Int) + pp - 1) pp } := by
  unfold get_items at hok
  cases hfr : filterRows (countWhere (total_items_query n d tz)) db with
  | none =>
    rw [show runCountQuery db (total_items_query n d tz) = none from by
      unfold runCountQuery; rw [hfr]; rfl] at hok
    cases hok
  | some matched =>
    rw [show runCountQuery db (total_items_query n d tz)
        = some (matched.length : Int) from by
      unfold runCountQuery; rw [hfr]; rfl] at hok
    dsimp only at hok
    by_cases hz : pp = 0
    · rw [show pyFloorDiv ((matched.length : Int) + pp - 1) pp
          = Except.error PyError.zeroDivision from by
        unfold pyFloorDiv; rw [if_pos hz]] at hok
      dsimp only at hok
      cases hok
    · rw [show pyFloorDiv ((matched.length : Int) + pp - 1) pp
          = Except.ok (Int.fdiv ((matched.length : Int) + pp - 1) pp) from by
        unfold pyFloorDiv; rw [if_neg hz]] at hok
      dsimp only at hok
      by_cases hneg : pp < 0 ∨ (page - 1) * pp < 0
      · rw [show runItemsQuery db (items_query n d tz pp ((page - 1) * pp))
            pp ((page - 1) * pp) = none from by
          unfold runItemsQuery; rw [if_pos hneg]] at hok
        dsimp only at hok
        cases hok
      · have hpw : filterRows
            (pageWhere (items_query n d tz pp ((page - 1) * pp))) db
            = some matched := by
          rw [filterRows_congr
            (fun it => pageWhere_eq_countWhere n d tz pp ((page - 1) * pp) it) db]
          exact hfr
        rw [show runItemsQuery db (items_query n d tz pp ((page - 1) * pp))
            pp ((page - 1) * pp)
            = some (((sortDesc matched).drop ((page - 1) * pp).toNat).take pp.toNat)
            from by
          unfold runItemsQuery; rw [if_neg hneg]; rw [hpw]; rfl] at hok
        dsimp only at hok
        injection hok with hok
        obtain ⟨hneg1, hneg2⟩ := not_or.mp hneg
        exact ⟨matched, rfl, by omega, not_lt.mp hneg2, hok.symm⟩

/-- A row satisfying the count WHERE clauses of a nonempty name filter has
exactly the filtered `item_name`. -/
lemma countWhere_name_true {n : String} (d : String) (tz : Option String)
    (it : Item) (hn : n ≠ "")
    (h : countWhere (total_items_query n d tz) it = some true) :
    it.item_name = n := by
  unfold countWhere total_items_query buildFilters nameFilter at h
  rw [if_neg hn] at h
  simp only [List.cons_append, List.nil_append] at h
  simp only [evalClauses, evalClause] at h
  cases hrest : evalClauses it (dateFilter d tz).1 (dateFilter d tz).2 with
  | none => rw [hrest] at h; cases h
  | some br =>
    obtain ⟨b2, rest2⟩ := br
    rw [hrest] at h
    dsimp only at h
    cases rest2 with
    | nil =>
      injection h with h
      have hb : (it.item_name == n) = true := (Bool.and_eq_true _ _).mp h |>.1
      simpa using hb
    | cons p ps => cases h

/-! ## Claims -/

/-- C1: for a listing request with a date filter and a `tzOffset` string
that parses as the number `off`, the composer appends the shifted date
clause whose bound shift parameter is exactly the negation `-off` (minutes);
that clause truncates `created_at` shifted by the bound minutes to a
calendar date and compares it with the target date; and in the worked
scenario a row at UTC 2024-01-01T23:00:00Z matches `date="2024-01-02"` with
`tzOffset=-330` (a shift of +330 minutes lands it on local day
2024-01-02). -/
theorem C1_tz_shift_negated (name date tzs : String) (off : Int) (it : Item)
    (hd : date ≠ "") (hp : parseTzOffset tzs = some off) :
    buildFilters name date (some tzs)
      = ((nameFilter name).1 ++ [Clause.dateShift],
         (nameFilter name).2 ++ [Param.int (-off), Param.str date])
    ∧ (∀ m ds rest,
        evalClause it Clause.dateShift (Param.int m :: Param.str ds :: rest)
          = (parseDate ds).map fun day =>
              (decide (Int.fdiv (it.created_at + 60 * m) 86400 = day), rest))
    ∧ get_items [exampleRow] 1 10 "" ("2024-01-02") (some ("-330"))
        = Except.ok { items := [exampleRow], currentPage := 1, totalPages := 1 } := by
  have hts : tzs ≠ "" := by
    intro he
    rw [he] at hp
    exact Option.noConfusion ((show parseTzOffset ("") = none from rfl) ▸ hp)
  refine ⟨?_, fun m ds rest => rfl, rfl⟩
  unfold buildFilters dateFilter
  rw [if_neg hd]
  dsimp only
  rw [if_neg hts, hp]

/-- C2: the page query is built from the identical clause list as the count
query, its parameter list is the count query parameters followed only by
the `LIMIT`/`OFFSET` bindings, and a row satisfies the page query WHERE
clause exactly when it satisfies the count query WHERE clause. -/
theorem C2_count_page_consistency (n d : String) (tz : Option String)
    (pp off : Int) (it : Item) :
    (items_query n d tz pp off).1 = (total_items_query n d tz).1
    ∧ (items_query n d tz pp off).2
        = (total_items_query n d tz).2 ++ [Param.int pp, Param.int off]
    ∧ pageWhere (items_query n d tz pp off) it
        = countWhere (total_items_query n d tz) it :=
  ⟨rfl, rfl, pageWhere_eq_countWhere n d tz pp off it⟩

/-- C1 witness: the theorem applied at the scenario inputs. -/
theorem C1_tz_shift_negated_witness :
    buildFilters ("") ("2024-01-02") (some ("-330"))
      = ((nameFilter ("")).1 ++ [Clause.dateShift],
         (nameFilter ("")).2 ++ [Param.int (-(-330 : Int)), Param.str ("2024-01-02")])
    ∧ (∀ m ds rest,
        evalClause exampleRow Clause.dateShift (Param.int m :: Param.str ds :: rest)
          = (parseDate ds).map fun day =>
              (decide (Int.fdiv (exampleRow.created_at + 60 * m) 86400 = day), rest))
    ∧ get_items [exampleRow] 1 10 "" ("2024-01-02") (some ("-330"))
        = Except.ok { items := [exampleRow], currentPage := 1, totalPages := 1 } :=
  C1_tz_shift_negated ("") ("2024-01-02") ("-330") (-330) exampleRow
    (by decide) (by rfl)

/-- C3: with positive `per_page`, a successful listing response reports
`totalPages` computed as `(total_items + per_page - 1) // per_page`, which
equals the ceiling of `total_items / per_page`; zero matching rows yield
`totalPages = 0`. -/
theorem C3_total_pages_ceil (db : List Item) (page pp : Int) (n d : String)
    (tz : Option String) (r : ListingResult) (matched : List Item)
    (hpp : 0 < pp)
    (hok : get_items db page pp n d tz = Except.ok r)
    (hm : filterRows (countWhere (total_items_query n d tz)) db = some matched) :
    r.totalPages = Int.fdiv ((matched.length : Int) + pp - 1) pp
    ∧ r.totalPages = ⌈(matched.length : ℚ) / (pp : ℚ)⌉
    ∧ (matched = [] → r.totalPages = 0) := by
  obtain ⟨m2, hm2, hpp2, hoff2, hr⟩ := get_items_ok_inv db page pp n d tz r hok
  rw [hm] at hm2
  injection hm2 with hm2
  subst hm2
  have hfd := fdiv_add_sub_one_eq_ceil (matched.length : Int) pp hpp
  have h1 : r.totalPages = Int.fdiv ((matched.length : Int) + pp - 1) pp := by
    rw [hr]
  refine ⟨h1, ?_, ?_⟩
  · rw [h1, hfd]
    norm_cast
  · intro he
    rw [h1, he]
    simp only [List.length_nil, Nat.cast_zero, zero_add]
    rw [Int.fdiv_eq_ediv _ (le_of_lt hpp)]
    exact Int.ediv_eq_zero_of_lt (by omega) (by omega)

/-- C4: a present but unparseable `tzOffset` yields exactly the clause and
parameter lists of a request with no `tzOffset` at all, and the whole
listing request behaves identically to the no-offset request. -/
theorem C4_unparseable_tz_fallback (name date tzs : String)
    (hp : parseTzOffset tzs = none) :
    buildFilters name date (some tzs) = buildFilters name date none
    ∧ ∀ db page pp, get_items db page pp name date (some tzs)
        = get_items db page pp name date none := by
  have hbf : buildFilters name date (some tzs) = buildFilters name date none := by
    unfold buildFilters dateFilter
    by_cases hd : date = ""
    · simp only [if_pos hd]
    · simp only [if_neg hd]
      by_cases hs : tzs = ""
      · rw [if_pos hs]
      · rw [if_neg hs, hp]
  refine ⟨hbf, fun db page pp => ?_⟩
  unfold get_items total_items_query items_query
  rw [hbf]

/-- C4 witness: the theorem applied at the unparseable offset `"abc"`. -/
theorem C4_unparseable_tz_fallback_witness :
    buildFilters ("Widget") ("2024-01-02") (some ("abc"))
      = buildFilters ("Widget") ("2024-01-02") none
    ∧ ∀ db page pp,
        get_items db page pp ("Widget") ("2024-01-02") (some ("abc"))
          = get_items db page pp ("Widget") ("2024-01-02") none :=
  C4_unparseable_tz_fallback ("Widget") ("2024-01-02") ("abc") (by rfl)

/-- C5 counterexample: with `per_page = 0` the pagination arithmetic does
reach the division `(total_items + per_page - 1) // per_page` with divisor
zero, so the request fails with a `ZeroDivisionError`; the claim that the
composer guards `per_page <= 0` or otherwise avoids the zero-divisor
division is false on the code. -/
theorem C5_counterexample :
    get_items [] 1 0 "" "" none = Except.error PyError.zeroDivision := rfl

/-- C5 (amended): with `per_page = 0`, once the count query succeeds the
handler evaluates `(total_items + per_page - 1) // per_page` with divisor
zero and the request fails immediately with a `ZeroDivisionError` — it
neither hangs nor returns a silently wrong page, but there is no explicit
guard on `per_page <= 0`. -/
theorem C5_amended_div_by_zero (db : List Item) (page : Int) (n d : String)
    (tz : Option String) (total : Int)
    (h : runCountQuery db (total_items_query n d tz) = some total) :
    get_items db page 0 n d tz = Except.error PyError.zeroDivision := by
  unfold get_items
  rw [h]
  dsimp only
  rw [show pyFloorDiv (total + 0 - 1) 0 = Except.error PyError.zeroDivision from by
    unfold pyFloorDiv; rw [if_pos rfl]]

/-- C5 witness: the amended theorem applied at the empty table. -/
theorem C5_amended_div_by_zero_witness :
    get_items [] 3 0 "" "" none = Except.error PyError.zeroDivision :=
  C5_amended_div_by_zero [] 3 "" "" none 0 (by rfl)

/-- Witness rows: three items on distinct creation times. -/
def w1 : Item :=
  { id := 1, item_code := "A1", item_name := "Widget", rack_no := "R1",
    quantity := 1, image_filename := none, description := none,
    created_at := 100 }

/-- Second witness row. -/
def w2 : Item :=
  { id := 2, item_code := "A2", item_name := "Gadget", rack_no := "R2",
    quantity := 2, image_filename := none, description := none,
    created_at := 200 }

/-- Third witness row. -/
def w3 : Item :=
  { id := 3, item_code := "A3", item_name := "Widget", rack_no := "R3",
    quantity := 3, image_filename := none, description := none,
    created_at := 300 }

/-- C3 witness: the theorem applied to a three-row table with
`per_page = 2`. -/
theorem C3_total_pages_ceil_witness :
    ({ items := [w3, w2], currentPage := 1, totalPages := 2 } : ListingResult).totalPages
        = Int.fdiv ((([w1, w2, w3] : List Item).length : Int) + 2 - 1) 2
    ∧ ({ items := [w3, w2], currentPage := 1, totalPages := 2 } : ListingResult).totalPages
        = ⌈(([w1, w2, w3] : List Item).length : ℚ) / ((2 : Int) : ℚ)⌉
    ∧ ([w1, w2, w3] = ([] : List Item)
        → ({ items := [w3, w2], currentPage := 1, totalPages := 2 } : ListingResult).totalPages = 0) :=
  C3_total_pages_ceil [w1, w2, w3] 1 2 "" "" none
    { items := [w3, w2], currentPage := 1, totalPages := 2 } [w1, w2, w3]
    (by decide) (by rfl) (by rfl)

/-- C6: a successful listing response with positive `page` and `per_page`
returns at most `per_page` items, namely the window of the descending-order
matched rows after skipping `(page-1)*per_page` of them, and the returned
items are in descending `created_at` order. -/
theorem C6_page_window (db : List Item) (page pp : Int) (n d : String)
    (tz : Option String) (r : ListingResult) (pm : List Item)
    (hpage : 1 ≤ page) (hpp : 1 ≤ pp)
    (hok : get_items db page pp n d tz = Except.ok r)
    (hm : filterRows (pageWhere (items_query n d tz pp ((page - 1) * pp))) db
      = some pm) :
    r.items.length ≤ pp.toNat
    ∧ r.items = ((sortDesc pm).drop ((page - 1) * pp).toNat).take pp.toNat
    ∧ List.Pairwise (fun a b : Item => b.created_at ≤ a.created_at) r.items := by
  obtain ⟨matched, hm2, hpp2, hoff2, hr⟩ := get_items_ok_inv db page pp n d tz r hok
  have hpm : pm = matched := by
    rw [filterRows_congr
      (fun it => pageWhere_eq_countWhere n d tz pp ((page - 1) * pp) it) db,
      hm2] at hm
    injection hm with hm
    exact hm.symm
  subst hpm
  refine ⟨?_, ?_, ?_⟩
  · rw [hr]
    exact List.length_take_le _ _
  · rw [hr]
  · rw [hr]
    exact List.Pairwise.sublist
      ((List.take_sublist _ _).trans (List.drop_sublist _ _))
      (sortDesc_pairwise pm)

/-- C6 witness: the theorem applied to page 2 of a three-row table with
`per_page = 2`. -/
theorem C6_page_window_witness :
    ({ items := [w1], currentPage := 2, totalPages := 2 } : ListingResult).items.length
        ≤ (2 : Int).toNat
    ∧ ({ items := [w1], currentPage := 2, totalPages := 2 } : ListingResult).items
        = ((sortDesc [w1, w2, w3]).drop (((2 : Int) - 1) * 2).toNat).take (2 : Int).toNat
    ∧ List.Pairwise (fun a b : Item => b.created_at ≤ a.created_at)
        ({ items := [w1], currentPage := 2, totalPages := 2 } : ListingResult).items :=
  C6_page_window [w1, w2, w3] 2 2 "" "" none
    { items := [w1], currentPage := 2, totalPages := 2 } [w1, w2, w3]
    (by decide) (by decide) (by rfl) (by rfl)

/-- C7: with a nonempty name filter, every returned item has `item_name`
exactly equal to the filter value, and a successful count query counts
exactly the rows satisfying the shared WHERE clauses. -/
theorem C7_name_filter_exact (db : List Item) (page pp : Int) (name d : String)
    (tz : Option String) (r : ListingResult)
    (hn : name ≠ "")
    (hok : get_items db page pp name d tz = Except.ok r) :
    (∀ it ∈ r.items, it.item_name = name)
    ∧ ∀ matched,
        filterRows (countWhere (total_items_query name d tz)) db = some matched →
          matched = db.filter fun it =>
            countWhere (total_items_query name d tz) it == some true := by
  obtain ⟨matched, hm, hpp2, hoff2, hr⟩ := get_items_ok_inv db page pp name d tz r hok
  refine ⟨?_, fun m hm2 => filterRows_eq_filter hm2⟩
  intro it hit
  rw [hr] at hit
  dsimp only at hit
  have h1 : it ∈ sortDesc matched :=
    ((List.take_sublist _ _).trans (List.drop_sublist _ _)).subset hit
  have h2 : it ∈ matched := (sortDesc_perm matched).subset h1
  exact countWhere_name_true d tz it hn (of_mem_filterRows hm it h2)

/-- C7 witness: the theorem applied to the name filter value matching two
of three rows. -/
theorem C7_name_filter_exact_witness :
    (∀ it ∈ ({ items := [w3, w1], currentPage := 1, totalPages := 1 } : ListingResult).items,
        it.item_name = "Widget")
    ∧ ∀ matched,
        filterRows (countWhere (total_items_query ("Widget") "" none)) [w1, w2, w3]
            = some matched →
          matched = [w1, w2, w3].filter fun it =>
            countWhere (total_items_query ("Widget") "" none) it == some true :=
  C7_name_filter_exact [w1, w2, w3] 1 10 ("Widget") "" none
    { items := [w3, w1], currentPage := 1, totalPages := 1 }
    (by decide) (by rfl)

/-- C8: a request whose page lies beyond the last page of matching rows
succeeds with an empty items list, the page number echoed unchanged (not
clamped), and the usual total page count. -/
theorem C8_beyond_last_page (db : List Item) (page pp : Int) (n d : String)
    (tz : Option String) (matched : List Item)
    (hpage : 1 ≤ page) (hpp : 1 ≤ pp)
    (hm : filterRows (countWhere (total_items_query n d tz)) db = some matched)
    (hbeyond : (matched.length : Int) ≤ (page - 1) * pp) :
    get_items db page pp n d tz
      = Except.ok
          { items := [], currentPage := page,
            totalPages := Int.fdiv ((matched.length : Int) + pp - 1) pp } := by
  have hoff : 0 ≤ (page - 1) * pp := mul_nonneg (by omega) (by omega)
  rw [get_items_eval db page pp n d tz matched hm (by omega) hoff]
  have hlen : (sortDesc matched).length ≤ ((page - 1) * pp).toNat := by
    rw [(sortDesc_perm matched).length_eq]
    have h2 := Int.toNat_le_toNat hbeyond
    simpa using h2
  rw [List.drop_eq_nil_of_le hlen]
  simp

/-- C8 witness: the theorem applied to page 5 of a three-row table with
`per_page = 2`. -/
theorem C8_beyond_last_page_witness :
    get_items [w1, w2, w3] 5 2 "" "" none
      = Except.ok
          { items := [], currentPage := 5,
            totalPages := Int.fdiv ((([w1, w2, w3] : List Item).length : Int) + 2 - 1) 2 } :=
  C8_beyond_last_page [w1, w2, w3] 5 2 "" "" none [w1, w2, w3]
    (by decide) (by decide) (by rfl) (by decide)

/-- C9: a create request whose `item_code` already exists yields the 409
conflict outcome naming the duplicate code, and leaves the table unchanged
(the transaction is rolled back). -/
theorem C9_duplicate_conflict (db : List Item) (data : NewItemData)
    (img : Option String) (newId : Nat) (now : Int)
    (h : ∃ it ∈ db, it.item_code = data.item_code) :
    (add_item db data img newId now).status = 409
    ∧ (add_item db data img newId now).db = db
    ∧ (add_item db data img newId now).errorMsg
        = some ("Item code " ++ squote ++ data.item_code ++ squote
            ++ " already exists.") := by
  have hdup : (db.any fun it => it.item_code == data.item_code) = true := by
    obtain ⟨it, hit, he⟩ := h
    exact List.any_eq_true.mpr ⟨it, hit, by simp [he]⟩
  unfold add_item
  rw [if_pos hdup]
  exact ⟨rfl, rfl, rfl⟩

/-- Payload used by the C9 witness: it reuses the code of `w1`. -/
def dupData : NewItemData :=
  { item_code := "A1", item_name := "Widget B", rack_no := "R9",
    quantity := 7, description := none }

/-- C9 witness: the theorem applied to a duplicate of `w1`. -/
theorem C9_duplicate_conflict_witness :
    (add_item [w1, w2] dupData none 9 999).status = 409
    ∧ (add_item [w1, w2] dupData none 9 999).db = [w1, w2]
    ∧ (add_item [w1, w2] dupData none 9 999).errorMsg
        = some ("Item code " ++ squote ++ dupData.item_code ++ squote
            ++ " already exists.") :=
  C9_duplicate_conflict [w1, w2] dupData none 9 999
    ⟨w1, by simp, by rfl⟩

/-- C10: an empty-string `name` or `date` parameter contributes no
predicate at all (exactly as when absent — both arrive as the falsy empty
string): the composed filters degenerate to the other filter alone, and
with both empty the count WHERE clause keeps every row of the table. -/
theorem C10_empty_params_no_predicate :
    (∀ date tz, buildFilters ("") date tz = dateFilter date tz)
    ∧ (∀ name tz, buildFilters name ("") tz = nameFilter name)
    ∧ ∀ tz db, filterRows (countWhere (total_items_query ("") ("") tz)) db = some db := by
  refine ⟨fun date tz => ?_, fun name tz => ?_, fun tz db => ?_⟩
  · unfold buildFilters nameFilter
    rw [if_pos rfl]
    simp
  · unfold buildFilters dateFilter
    rw [if_pos rfl]
    simp
  · have hq : total_items_query ("") ("") tz = ([], []) := by
      unfold total_items_query buildFilters nameFilter dateFilter
      rw [if_pos rfl, if_pos rfl]
      rfl
    rw [hq]
    induction db with
    | nil => rfl
    | cons it rest ih => simp [filterRows, countWhere, evalClauses, ih]
